import Mathlib

/-!
Verification of the moogle fake Google Cloud Storage emulator
(`moogle/storage/models.py`): a shallow embedding of the mutable object
model (`FakeBucket`, `FakeBlob`, `FakeClient`, `FakeBlobUpload`,
`FakeAuthorizedSession`) and proofs of the specified properties.
-/

set_option autoImplicit false

namespace Moogle

/-- A byte string, as a list of byte values. -/
abbrev Bytes := List Nat

/-- The state of an `io.BytesIO` object: backing data plus the stream
position (`tell()`). -/
structure ByteBuf where
  data : Bytes
  pos : Nat
deriving DecidableEq, Repr

/-- `io.BytesIO()` — fresh empty stream at position 0. -/
def ByteBuf.empty : ByteBuf := ⟨[], 0⟩

/-- `seek(p)` with absolute whence: sets the position (which may lie past
the end of the data). -/
def ByteBuf.seek (b : ByteBuf) (p : Nat) : ByteBuf := ⟨b.data, p⟩

/-- `read(n)` for `n ≥ 0`: returns up to `n` bytes starting at the
position and advances the position by the number of bytes actually read. -/
def ByteBuf.read (b : ByteBuf) (n : Nat) : Bytes × ByteBuf :=
  let bytes := (b.data.drop b.pos).take n
  (bytes, ⟨b.data, b.pos + bytes.length⟩)

/-- `read()` with no size argument: read from the position to end of
stream. -/
def ByteBuf.readAll (b : ByteBuf) : Bytes × ByteBuf :=
  (b.data.drop b.pos, ⟨b.data, b.pos + (b.data.drop b.pos).length⟩)

/-- `read(n)` for a possibly negative `n`: CPython treats a negative size
as "read to end of stream". -/
def ByteBuf.readCount (b : ByteBuf) (n : Int) : Bytes × ByteBuf :=
  if n < 0 then b.readAll else b.read n.toNat

/-- `write(chunk)`: overwrites bytes at the position (zero-padding when
the position lies past the end, as CPython does) and advances the
position past the written chunk. -/
def ByteBuf.write (b : ByteBuf) (chunk : Bytes) : ByteBuf :=
  let padded := b.data ++ List.replicate (b.pos - b.data.length) 0
  ⟨padded.take b.pos ++ chunk ++ padded.drop (b.pos + chunk.length),
   b.pos + chunk.length⟩

/-- `FakeBlob.upload_from_string(data)` effect on the blob's private
`__contents` stream: replace it with `BytesIO(data)` and `seek(0, SEEK_END)`,
so the position ends at `len(data)`. A `str` argument is utf-8 encoded
first; we model the resulting byte payload. -/
def FakeBlob.upload_from_string (data : Bytes) : ByteBuf := ⟨data, data.length⟩

/-- `FakeBlob.write(data)` delegates to `upload_from_string`. -/
def FakeBlob.blobWrite (data : Bytes) : ByteBuf := FakeBlob.upload_from_string data

/-- `FakeBlob.download_as_bytes(start=0, end=None)`: when `end` is `None`
it is replaced by the current position (`tell()`); then `seek(start)` and
`read(end - start)`. Returns the bytes together with the resulting
`__contents` stream. -/
def FakeBlob.download_as_bytes (c : ByteBuf) (start : Nat) (stop : Option Nat) :
    Bytes × ByteBuf :=
  let e := stop.getD c.pos
  (c.seek start).readCount ((e : Int) - (start : Int))

/-- The `FakeBlob.size` property: `None` when the stream position is 0,
otherwise the stream position (note: the position, not the data length). -/
def FakeBlob.size (c : ByteBuf) : Option Nat :=
  if c.pos = 0 then none else some c.pos

/-! ## The object heap

Python objects are mutable and aliased, so the embedding keeps every
allocated `FakeBlob` / `FakeBucket` / `FakeBlobUpload` in a heap indexed
by allocation order, and handles are indices into it.  A single
`FakeClient` owns the two ordered-dict registries (`__buckets`,
`uploads`). -/

/-- The Python exceptions the modelled code can raise. -/
inductive Err where
  | notFound (msg : String)    -- google.cloud.exceptions.NotFound
  | conflict (msg : String)    -- google.cloud.exceptions.Conflict
  | keyError (key : String)    -- builtin KeyError from a raw dict access
  | attributeError             -- method access on a None field
deriving DecidableEq, Repr

/-- Discriminator: is this exception the NotFound kind
(`google.cloud.exceptions.NotFound`)? -/
def Err.isNotFound : Err → Bool
  | .notFound _ => true
  | _ => false

/-- State of a `FakeBlob` object. -/
structure BlobObj where
  name : String
  bucketRef : Nat      -- `_bucket`
  exists_ : Bool       -- `_exists`
  contents : ByteBuf   -- `__contents`
deriving DecidableEq, Repr

/-- State of a `FakeBucket` object.  `blobs` is the `OrderedDict` from
blob name to the registered blob object. -/
structure BucketObj where
  name : String
  blobs : List (String × Nat)
  exists_ : Bool       -- `_exists`
deriving DecidableEq, Repr

/-- State of a `FakeBlobUpload` object.  `terminate` sets `__contents`
to `None`, hence the `Option`. -/
structure UploadObj where
  url : String
  blobRef : Nat            -- `blob`
  finished : Bool          -- `_finished`
  contents : Option ByteBuf -- `__contents`
deriving DecidableEq, Repr

/-- A `FakeResponse`. -/
structure FakeResponse where
  status_code : Nat
  text : Option String
deriving DecidableEq, Repr

/-- The heap: all allocated objects plus the single `FakeClient`'s
registries (`__buckets` and `uploads`). -/
structure World where
  blobObjs : List BlobObj
  bucketObjs : List BucketObj
  uploadObjs : List UploadObj
  buckets : List (String × Nat)
  uploads : List (String × Nat)
deriving DecidableEq, Repr

/-- The empty heap with a freshly constructed `FakeClient`. -/
def World.empty : World := ⟨[], [], [], [], []⟩

/-! ### Ordered-dict operations (Python `dict` preserves insertion order) -/

/-- `d[k]` / `d.get(k)` as an option. -/
def odLookup (k : String) : List (String × Nat) → Option Nat
  | [] => none
  | p :: t => if p.1 = k then some p.2 else odLookup k t

/-- `del d[k]` (the key occurs at most once in a dict; removal keeps the
order of the remaining entries). -/
def odDelete (k : String) : List (String × Nat) → List (String × Nat)
  | [] => []
  | p :: t => if p.1 = k then odDelete k t else p :: odDelete k t

/-- `d[k] = v`: update in place when present, else append. -/
def odSet (k : String) (v : Nat) : List (String × Nat) → List (String × Nat)
  | [] => [(k, v)]
  | p :: t => if p.1 = k then (k, v) :: t else p :: odSet k v t

/-- List element at an index with a default (the defaults are never
reached on well-formed heaps). -/
def nthD {α : Type} (l : List α) (i : Nat) (d : α) : α :=
  match l, i with
  | [], _ => d
  | a :: _, 0 => a
  | _ :: t, n + 1 => nthD t n d

def dfltBlob : BlobObj := ⟨"", 0, false, ByteBuf.empty⟩
def dfltBucket : BucketObj := ⟨"", [], false⟩
def dfltUpload : UploadObj := ⟨"", 0, false, none⟩

/-- Dereference a blob handle. -/
def getBlob (w : World) (r : Nat) : BlobObj := nthD w.blobObjs r dfltBlob
/-- Dereference a bucket handle. -/
def getBucket (w : World) (r : Nat) : BucketObj := nthD w.bucketObjs r dfltBucket
/-- Dereference an upload handle. -/
def getUpload (w : World) (r : Nat) : UploadObj := nthD w.uploadObjs r dfltUpload

/-- Mutate the blob object behind a handle. -/
def updateBlob (w : World) (r : Nat) (f : BlobObj → BlobObj) : World :=
  { w with blobObjs := w.blobObjs.set r (f (getBlob w r)) }
/-- Mutate the bucket object behind a handle. -/
def updateBucket (w : World) (r : Nat) (f : BucketObj → BucketObj) : World :=
  { w with bucketObjs := w.bucketObjs.set r (f (getBucket w r)) }
/-- Mutate the upload object behind a handle. -/
def updateUpload (w : World) (r : Nat) (f : UploadObj → UploadObj) : World :=
  { w with uploadObjs := w.uploadObjs.set r (f (getUpload w r)) }

/-! ### FakeClient -/

/-- `FakeClient.register_bucket(bucket)`: raise `Conflict` when the name
is taken, else insert into `__buckets`. -/
def FakeClient.register_bucket (w : World) (bucketRef : Nat) : Except Err World :=
  let name := (getBucket w bucketRef).name
  if (odLookup name w.buckets).isSome then
    .error (.conflict ("Bucket " ++ name ++ " already exists"))
  else
    .ok { w with buckets := w.buckets ++ [(name, bucketRef)] }

/-- `FakeClient.bucket(bucket_id)`: lookup, translating `KeyError` into
`NotFound`. -/
def FakeClient.bucket (w : World) (bucket_id : String) : Except Err Nat :=
  match odLookup bucket_id w.buckets with
  | some r => .ok r
  | none => .error (.notFound ("Bucket " ++ bucket_id ++ " not found"))

/-- `FakeClient.get_bucket(bucket_id)` delegates to `bucket`. -/
def FakeClient.get_bucket (w : World) (bucket_id : String) : Except Err Nat :=
  FakeClient.bucket w bucket_id

/-- `FakeClient.delete_bucket(bucket)`: `del self.__buckets[bucket.name]`
(a raw dict delete: `KeyError` when absent). -/
def FakeClient.delete_bucket (w : World) (bucketRef : Nat) : Except Err World :=
  let name := (getBucket w bucketRef).name
  if (odLookup name w.buckets).isSome then
    .ok { w with buckets := odDelete name w.buckets }
  else
    .error (.keyError name)

/-- `FakeClient.register_upload(upload)`: `self.uploads[upload.url] = upload`. -/
def FakeClient.register_upload (w : World) (uploadRef : Nat) : World :=
  { w with uploads := odSet (getUpload w uploadRef).url uploadRef w.uploads }

/-! ### FakeBucket -/

/-- `FakeBucket.__init__(client, name)`: allocate the object (empty blob
dict, `_exists = True`), then `client.register_bucket(self)`.  On
`Conflict` the exception propagates out of the constructor; the
mutations made before the raise (the bare allocation) persist, so the
heap is returned alongside the outcome — the allocated object is simply
unreachable and the client registry is untouched. -/
def FakeBucket.new (w : World) (name : String) : Except Err Nat × World :=
  let r := w.bucketObjs.length
  let w1 := { w with bucketObjs := w.bucketObjs ++ [{ name := name, blobs := [], exists_ := true }] }
  match FakeClient.register_bucket w1 r with
  | .ok w2 => (.ok r, w2)
  | .error e => (.error e, w1)

/-- `FakeClient.create_bucket(bucket_id)` constructs a `FakeBucket`. -/
def FakeClient.create_bucket (w : World) (bucket_id : String) : Except Err Nat × World :=
  FakeBucket.new w bucket_id

/-- `FakeBucket.register_blob(blob)`: insert into the blob dict only
when the name is not yet present. -/
def FakeBucket.register_blob (w : World) (bucketRef blobRef : Nat) : World :=
  let bname := (getBlob w blobRef).name
  updateBucket w bucketRef (fun bk =>
    if (odLookup bname bk.blobs).isSome then bk
    else { bk with blobs := bk.blobs ++ [(bname, blobRef)] })

/-- `FakeBucket.get_blob(blob_id)`: lookup, translating `KeyError` into
`NotFound`. -/
def FakeBucket.get_blob (w : World) (bucketRef : Nat) (blob_id : String) : Except Err Nat :=
  match odLookup blob_id (getBucket w bucketRef).blobs with
  | some r => .ok r
  | none => .error (.notFound ("Blob " ++ blob_id ++ " not found"))

/-- `FakeBucket.list_blobs()`: the registered blobs in insertion order. -/
def FakeBucket.list_blobs (w : World) (bucketRef : Nat) : List Nat :=
  (getBucket w bucketRef).blobs.map (fun p => p.2)

/-- `FakeBucket.delete_blob(blob)`: `del self.blobs[blob.name]` (raw dict
delete: `KeyError` when the name is absent). -/
def FakeBucket.delete_blob (w : World) (bucketRef blobRef : Nat) : Except Err World :=
  let bname := (getBlob w blobRef).name
  if (odLookup bname (getBucket w bucketRef).blobs).isSome then
    .ok (updateBucket w bucketRef (fun bk => { bk with blobs := odDelete bname bk.blobs }))
  else
    .error (.keyError bname)

/-! ### FakeBlob -/

/-- `FakeBlob._create_if_not_exists()`: register with the owning bucket,
then set `_exists = True` (unconditionally). -/
def FakeBlob._create_if_not_exists (w : World) (blobRef : Nat) : World :=
  let w1 := FakeBucket.register_blob w (getBlob w blobRef).bucketRef blobRef
  updateBlob w1 blobRef (fun b => { b with exists_ := true })

/-- `FakeBlob.__init__(name, bucket)`: allocate with `_exists = False`
and a fresh empty `__contents`, then `_create_if_not_exists`. -/
def FakeBlob.new (w : World) (name : String) (bucketRef : Nat) : Nat × World :=
  let r := w.blobObjs.length
  let w1 := { w with blobObjs := w.blobObjs ++ [{ name := name, bucketRef := bucketRef, exists_ := false, contents := ByteBuf.empty }] }
  (r, FakeBlob._create_if_not_exists w1 r)

/-- `FakeBucket.blob(blob_id)`: `self.blobs.get(blob_id, FakeBlob(blob_id, self))`.
Python evaluates the default argument eagerly, so a fresh `FakeBlob` is
always constructed — and registers itself when the name is absent —
before the dict lookup runs. -/
def FakeBucket.blob (w : World) (bucketRef : Nat) (blob_id : String) : Nat × World :=
  let p := FakeBlob.new w blob_id bucketRef
  match odLookup blob_id (getBucket p.2 bucketRef).blobs with
  | some r => (r, p.2)
  | none => (p.1, p.2)

/-- `FakeBlob.delete()`: unregister from the owning bucket, then set
`_exists = False`. -/
def FakeBlob.delete (w : World) (blobRef : Nat) : Except Err World :=
  match FakeBucket.delete_blob w (getBlob w blobRef).bucketRef blobRef with
  | .ok w1 => .ok (updateBlob w1 blobRef (fun b => { b with exists_ := false }))
  | .error e => .error e

/-- `FakeBucket.delete()` body loop: `for blob in list(self.blobs.values()):
blob.delete()` over a snapshot of the registered blob handles. -/
def FakeBucket.deleteBlobs (w : World) : List Nat → Except Err World
  | [] => .ok w
  | r :: rs =>
    match FakeBlob.delete w r with
    | .ok w1 => FakeBucket.deleteBlobs w1 rs
    | .error e => .error e

/-- `FakeBucket.delete()`: unregister from the client, mark non-existent,
then delete every registered blob (iterating over a snapshot). -/
def FakeBucket.delete (w : World) (bucketRef : Nat) : Except Err World :=
  match FakeClient.delete_bucket w bucketRef with
  | .error e => .error e
  | .ok w1 =>
    let w2 := updateBucket w1 bucketRef (fun bk => { bk with exists_ := false })
    FakeBucket.deleteBlobs w2 (FakeBucket.list_blobs w2 bucketRef)

/-! ### Upload sessions -/

/-- Modelled from the spec: `RESUMABLE_SESSION_URI_TEMPLATE` is referenced
by `create_resumable_upload_session` but defined outside this source file;
per the spec the session URL is parameterized by the bucket name and a
freshly generated unique upload token. -/
def RESUMABLE_SESSION_URI (bucketName uploadId : String) : String :=
  "https://storage.googleapis.com/upload/b/" ++ bucketName ++
    "/resumable/" ++ uploadId

/-- `FakeBlob.create_resumable_upload_session()`: mint the URL (the fresh
uuid4 token is passed in as `uploadId`), allocate a `FakeBlobUpload`
bound to this blob, and register it in the client's upload map via
`bucket.register_upload` → `client.register_upload`. -/
def FakeBlob.create_resumable_upload_session (w : World) (blobRef : Nat)
    (uploadId : String) : String × World :=
  let url := RESUMABLE_SESSION_URI (getBucket w (getBlob w blobRef).bucketRef).name uploadId
  let r := w.uploadObjs.length
  let w1 := { w with uploadObjs := w.uploadObjs ++ [{ url := url, blobRef := blobRef, finished := false, contents := some ByteBuf.empty }] }
  (url, FakeClient.register_upload w1 r)

/-- `FakeBlobUpload.write(data)`: `self.__contents.write(data)` (an
`AttributeError` if the buffer was discarded by `terminate`). -/
def FakeBlobUpload.write (w : World) (uploadRef : Nat) (data : Bytes) : Except Err World :=
  match (getUpload w uploadRef).contents with
  | some c => .ok (updateUpload w uploadRef (fun u => { u with contents := some (c.write data) }))
  | none => .error .attributeError

/-- `FakeBlobUpload.finish()`: when not yet finished, `seek(0)`, `read()`
the whole staging buffer, commit it via the blob's `upload_from_string`,
and set `_finished = True`; otherwise do nothing. -/
def FakeBlobUpload.finish (w : World) (uploadRef : Nat) : Except Err World :=
  let u := getUpload w uploadRef
  if u.finished then .ok w
  else
    match u.contents with
    | none => .error .attributeError
    | some c =>
      let c1 := c.seek 0
      let p := c1.readAll
      let w1 := updateBlob w u.blobRef (fun b => { b with contents := FakeBlob.upload_from_string p.1 })
      .ok (updateUpload w1 uploadRef (fun u2 => { u2 with contents := some p.2, finished := true }))

/-- `FakeBlobUpload.terminate()`: delete the target blob and discard the
staging buffer (`self.__contents = None`). -/
def FakeBlobUpload.terminate (w : World) (uploadRef : Nat) : Except Err World :=
  match FakeBlob.delete w (getUpload w uploadRef).blobRef with
  | .ok w1 => .ok (updateUpload w1 uploadRef (fun u => { u with contents := none }))
  | .error e => .error e

/-! ### FakeAuthorizedSession (the transport adapter) -/

/-- `smart_open.gcs._UNKNOWN` (external dependency): the marker a
content-range header ends with when the total length is unknown. -/
def UNKNOWN : String := "*"

/-- Python's `str.endswith(suffix)`: is `suffix` a suffix of the
string?  (Implemented over the character lists so it evaluates in the
kernel.) -/
def strEndsWith (s suffix : String) : Bool :=
  suffix.data.isSuffixOf s.data

/-- `smart_open.gcs._UPLOAD_INCOMPLETE_STATUS_CODES` (external
dependency): the reserved "incomplete, send more data" status codes. -/
def UPLOAD_INCOMPLETE_STATUS_CODES : List Nat := [308]

/-- `FakeAuthorizedSession.delete(upload_url)`:
`self._credentials.client.uploads.pop(upload_url)` (raw dict pop —
`KeyError` when the URL is unknown) followed by `upload.terminate()`. -/
def FakeAuthorizedSession.delete (w : World) (upload_url : String) : Except Err World :=
  match odLookup upload_url w.uploads with
  | none => .error (.keyError upload_url)
  | some r => FakeBlobUpload.terminate { w with uploads := odDelete upload_url w.uploads } r

/-- `FakeAuthorizedSession.put(url, data=None, headers=None)`:
`self._credentials.client.uploads[url]` (raw dict access — `KeyError`
when unknown), write the payload when present (a file-like payload is
fully `read()`; either way the chunk bytes are `data`), then inspect
`headers.get('Content-Range', '')`: if it does NOT end in the unknown
marker, `finish()` and answer 200, else answer the first reserved
incomplete status code.  `contentRange` models the `Content-Range`
header entry. -/
def FakeAuthorizedSession.put (w : World) (url : String) (data : Option Bytes)
    (contentRange : Option String) : Except Err (FakeResponse × World) :=
  match odLookup url w.uploads with
  | none => .error (.keyError url)
  | some r =>
    let step : Except Err World :=
      match data with
      | some d => FakeBlobUpload.write w r d
      | none => .ok w
    match step with
    | .error e => .error e
    | .ok w1 =>
      if strEndsWith (contentRange.getD "") UNKNOWN then
        .ok ({ status_code := (UPLOAD_INCOMPLETE_STATUS_CODES).headD 0, text := none }, w1)
      else
        match FakeBlobUpload.finish w1 r with
        | .error e => .error e
        | .ok w2 => .ok ({ status_code := 200, text := none }, w2)

/-! ## Support lemmas -/

theorem nthD_append_length {α : Type} (l : List α) (a d : α) :
    nthD (l ++ [a]) l.length d = a := by
  induction l with
  | nil => rfl
  | cons x t ih => simpa [nthD] using ih

theorem nthD_append_lt {α : Type} (l m : List α) (i : Nat) (d : α)
    (h : i < l.length) : nthD (l ++ m) i d = nthD l i d := by
  induction l generalizing i with
  | nil => simp at h
  | cons x t ih =>
    cases i with
    | zero => rfl
    | succ n => simpa [nthD] using ih n (by simpa using h)

theorem nthD_set_self {α : Type} (l : List α) (i : Nat) (a d : α)
    (h : i < l.length) : nthD (l.set i a) i d = a := by
  induction l generalizing i with
  | nil => simp at h
  | cons x t ih =>
    cases i with
    | zero => rfl
    | succ n => simpa [nthD] using ih n (by simpa using h)

theorem nthD_set_ne {α : Type} (l : List α) (i j : Nat) (a d : α)
    (h : i ≠ j) : nthD (l.set i a) j d = nthD l j d := by
  induction l generalizing i j with
  | nil => rfl
  | cons x t ih =>
    cases i with
    | zero =>
      cases j with
      | zero => exact absurd rfl h
      | succ m => rfl
    | succ n =>
      cases j with
      | zero => rfl
      | succ m => simpa [nthD] using ih n m (by omega)

theorem set_nthD {α : Type} (l : List α) (i : Nat) (d : α) :
    l.set i (nthD l i d) = l := by
  induction l generalizing i with
  | nil => rfl
  | cons x t ih =>
    cases i with
    | zero => rfl
    | succ n => simpa [nthD] using ih n

theorem odLookup_append_of_none (k : String) (l m : List (String × Nat))
    (h : odLookup k l = none) : odLookup k (l ++ m) = odLookup k m := by
  induction l with
  | nil => rfl
  | cons p t ih =>
    simp only [odLookup] at h
    by_cases hk : p.1 = k
    · rw [if_pos hk] at h
      exact absurd h (by simp)
    · rw [if_neg hk] at h
      show (if p.1 = k then some p.2 else odLookup k (t ++ m)) = odLookup k m
      rw [if_neg hk]
      exact ih h

theorem odLookup_odDelete_self (k : String) (m : List (String × Nat)) :
    odLookup k (odDelete k m) = none := by
  induction m with
  | nil => rfl
  | cons p t ih =>
    by_cases hk : p.1 = k
    · simpa [odDelete, hk] using ih
    · simpa [odDelete, odLookup, hk] using ih

theorem odDelete_of_not_mem (k : String) (m : List (String × Nat))
    (h : ∀ p ∈ m, p.1 ≠ k) : odDelete k m = m := by
  induction m with
  | nil => rfl
  | cons p t ih =>
    have hp : p.1 ≠ k := h p (by simp)
    simp only [odDelete, if_neg hp]
    rw [ih (fun q hq => h q (by simp [hq]))]

theorem ByteBuf.write_at_end (c : ByteBuf) (chunk : Bytes)
    (h : c.pos = c.data.length) :
    c.write chunk = ⟨c.data ++ chunk, c.data.length + chunk.length⟩ := by
  simp [ByteBuf.write, h, List.take_of_length_le, List.drop_eq_nil_of_le]

theorem ByteBuf.seek_zero_readAll (c : ByteBuf) :
    (c.seek 0).readAll = (c.data, ⟨c.data, c.data.length⟩) := by
  simp [ByteBuf.seek, ByteBuf.readAll]

/-! ## Claim C2

The claim says `size` is `None` before any write and present — even for
zero-length data — after every write.  The code computes `size` from the
stream position: `upload_from_string` leaves the position at `len(data)`,
so after a zero-length write the position is 0 and `size` is again
`None`, contradicting the claim's zero-length clause.  The rest of the
claim holds. -/

/-- Counterexample to C2 as stated: immediately after
`upload_from_string(b"")` the `size` property is `None` (the absent
sentinel), not a present zero. -/
theorem C2_size_cex : FakeBlob.size (FakeBlob.upload_from_string []) = none := rfl

/-- C2 (amended): `size` is `None` on a fresh blob's contents, and
immediately after `upload_from_string(data)` (hence also `write(data)`)
it equals `len(data)` when `data` is nonempty, but is `None` (absent)
again when `data` is zero-length. -/
theorem C2_size_after_write :
    (∀ data : Bytes, FakeBlob.size (FakeBlob.upload_from_string data) =
      if data.length = 0 then none else some data.length) ∧
    FakeBlob.size ByteBuf.empty = none := by
  refine ⟨fun data => ?_, rfl⟩
  simp [FakeBlob.size, FakeBlob.upload_from_string]

/-! ## Claim C7

The claim says an out-of-range `readRange` fails with an error rather
than silently truncating.  `download_as_bytes` has no error path at all:
`seek` accepts any position and `read` clamps at end-of-stream, so
out-of-range bounds are silently clamped. -/

/-- Counterexample to C7 as stated: on content `b"test"` (length 4),
`download_as_bytes(0, 10)` raises nothing and silently returns the
truncated range `b"test"` instead of the requested 10 bytes. -/
theorem C7_readRange_cex :
    (FakeBlob.download_as_bytes (FakeBlob.upload_from_string [116, 101, 115, 116])
      0 (some 10)).1 = [116, 101, 115, 116] ∧
    ([116, 101, 115, 116] : Bytes).length < 10 := by
  constructor
  · rfl
  · decide

/-- C7 (amended): `download_as_bytes(start, end)` never fails; for
`start ≤ end` it returns `content[start : end]` silently clamped to the
available data — in particular `end > L` yields only the bytes up to `L`
and `start ≥ L` yields the empty byte string. -/
theorem C7_readRange_clamps (c : ByteBuf) (start stop : Nat)
    (h : start ≤ stop) :
    (FakeBlob.download_as_bytes c start (some stop)).1 =
      (c.data.drop start).take (stop - start) := by
  have hn : ¬ ((stop : Int) - (start : Int) < 0) := by omega
  have ht : ((stop : Int) - (start : Int)).toNat = stop - start := by omega
  simp [FakeBlob.download_as_bytes, ByteBuf.readCount, ByteBuf.seek,
    ByteBuf.read, hn, ht]

/-- Witness for C7 (amended) at content `b"test"`, `start = 1`,
`stop = 9`. -/
theorem C7_readRange_clamps_witness :
    (1 : Nat) ≤ 9 ∧
    (FakeBlob.download_as_bytes (FakeBlob.upload_from_string [116, 101, 115, 116])
      1 (some 9)).1 =
      (([116, 101, 115, 116] : Bytes).drop 1).take (9 - 1) :=
  ⟨by decide,
   C7_readRange_clamps (FakeBlob.upload_from_string [116, 101, 115, 116]) 1 9 (by decide)⟩

/-! ## Claim C9

`download_as_bytes` is not observation-only: it moves the stream
position to `end`, and `size` reports that position. -/

/-- C9: after a valid `download_as_bytes(start, end)` on content of
length `L > 0`, the `size` property reports `end` (or the absent
sentinel when `end = 0`) even though the stored data still has length
`L`. -/
theorem C9_download_moves_size (data : Bytes) (start stop : Nat)
    (hL : 0 < data.length) (hss : start ≤ stop) (hsL : stop ≤ data.length) :
    FakeBlob.size
        (FakeBlob.download_as_bytes (FakeBlob.upload_from_string data) start (some stop)).2 =
      (if stop = 0 then none else some stop) ∧
    (FakeBlob.download_as_bytes (FakeBlob.upload_from_string data) start (some stop)).2.data
      = data := by
  have hn : ¬ ((stop : Int) - (start : Int) < 0) := by omega
  have ht : ((stop : Int) - (start : Int)).toNat = stop - start := by omega
  have hlen : ((data.drop start).take (stop - start)).length = stop - start := by
    simp only [List.length_take, List.length_drop]
    omega
  have h2 : (FakeBlob.download_as_bytes (FakeBlob.upload_from_string data)
      start (some stop)).2 =
      ⟨data, start + ((data.drop start).take (stop - start)).length⟩ := by
    simp [FakeBlob.download_as_bytes, FakeBlob.upload_from_string,
      ByteBuf.readCount, ByteBuf.seek, ByteBuf.read, hn, ht]
  have h3 : start + (stop - start) = stop := by omega
  constructor
  · rw [h2]
    simp only [FakeBlob.size, hlen, h3]
  · rw [h2]

/-- Witness for C9 at content `b"test"`, `start = 0`, `stop = 2`:
`size` becomes 2 although the data still has length 4. -/
theorem C9_download_moves_size_witness :
    (0 < ([116, 101, 115, 116] : Bytes).length) ∧
    (FakeBlob.size
        (FakeBlob.download_as_bytes (FakeBlob.upload_from_string [116, 101, 115, 116])
          0 (some 2)).2 = (if 2 = 0 then none else some 2) ∧
      (FakeBlob.download_as_bytes (FakeBlob.upload_from_string [116, 101, 115, 116])
          0 (some 2)).2.data = [116, 101, 115, 116]) :=
  ⟨by decide, C9_download_moves_size [116, 101, 115, 116] 0 2 (by decide) (by decide) (by decide)⟩

/-! ## Frame lemmas for the heap -/

theorem set_append_length {α : Type} (l : List α) (a b : α) :
    (l ++ [a]).set l.length b = l ++ [b] := by
  induction l with
  | nil => rfl
  | cons x t ih => simp [List.set, ih]

theorem getBlob_updateBlob_self (w : World) (r : Nat) (f : BlobObj → BlobObj)
    (h : r < w.blobObjs.length) : getBlob (updateBlob w r f) r = f (getBlob w r) :=
  nthD_set_self _ _ _ _ h

theorem getBlob_updateBlob_ne (w : World) (r r' : Nat) (f : BlobObj → BlobObj)
    (h : r ≠ r') : getBlob (updateBlob w r f) r' = getBlob w r' :=
  nthD_set_ne _ _ _ _ _ h

theorem getBlob_updateUpload (w : World) (r r' : Nat) (g : UploadObj → UploadObj) :
    getBlob (updateUpload w r g) r' = getBlob w r' := rfl

theorem getUpload_updateBlob (w : World) (r r' : Nat) (f : BlobObj → BlobObj) :
    getUpload (updateBlob w r f) r' = getUpload w r' := rfl

theorem getBlob_updateBucket (w : World) (r r' : Nat) (f : BucketObj → BucketObj) :
    getBlob (updateBucket w r f) r' = getBlob w r' := rfl

theorem getBucket_updateBlob (w : World) (r r' : Nat) (f : BlobObj → BlobObj) :
    getBucket (updateBlob w r f) r' = getBucket w r' := rfl

theorem getBucket_updateUpload (w : World) (r r' : Nat) (g : UploadObj → UploadObj) :
    getBucket (updateUpload w r g) r' = getBucket w r' := rfl

theorem getBucket_updateBucket_self (w : World) (r : Nat) (f : BucketObj → BucketObj)
    (h : r < w.bucketObjs.length) : getBucket (updateBucket w r f) r = f (getBucket w r) :=
  nthD_set_self _ _ _ _ h

theorem getUpload_updateUpload_self (w : World) (r : Nat) (f : UploadObj → UploadObj)
    (h : r < w.uploadObjs.length) : getUpload (updateUpload w r f) r = f (getUpload w r) :=
  nthD_set_self _ _ _ _ h

/-! ### Characterizations of blob construction, access and deletion -/

/-- `FakeBlob.__init__` when the name is not yet registered in the
bucket: the fresh object is appended (already marked existing) and
registered at the end of the bucket's blob dict. -/
theorem FakeBlob.new_absent (w : World) (n : String) (bref : Nat)
    (hb : bref < w.bucketObjs.length)
    (habs : odLookup n (getBucket w bref).blobs = none) :
    FakeBlob.new w n bref = (w.blobObjs.length,
      { blobObjs := w.blobObjs ++ [{ name := n, bucketRef := bref, exists_ := true, contents := ByteBuf.empty }],
        bucketObjs := w.bucketObjs.set bref
          { getBucket w bref with blobs := (getBucket w bref).blobs ++ [(n, w.blobObjs.length)] },
        uploadObjs := w.uploadObjs, buckets := w.buckets, uploads := w.uploads }) := by
  have hgb : getBlob
      { w with blobObjs := w.blobObjs ++ [{ name := n, bucketRef := bref, exists_ := false, contents := ByteBuf.empty }] }
      w.blobObjs.length =
      { name := n, bucketRef := bref, exists_ := false, contents := ByteBuf.empty } :=
    nthD_append_length _ _ _
  simp only [FakeBlob.new, FakeBlob._create_if_not_exists, FakeBucket.register_blob,
    updateBucket, updateBlob, hgb, habs, Option.isSome_none, Bool.false_eq_true, if_false,
    Prod.mk.injEq, true_and]
  have hbk : getBucket
      { w with blobObjs := w.blobObjs ++ [{ name := n, bucketRef := bref, exists_ := false, contents := ByteBuf.empty }] }
      bref = getBucket w bref := rfl
  rw [hbk, habs]
  simp only [Option.isSome_none, Bool.false_eq_true, if_false]
  have hgb2 : getBlob
      { blobObjs := w.blobObjs ++ [{ name := n, bucketRef := bref, exists_ := false, contents := ByteBuf.empty }],
        bucketObjs := w.bucketObjs.set bref
          { getBucket w bref with blobs := (getBucket w bref).blobs ++ [(n, w.blobObjs.length)] },
        uploadObjs := w.uploadObjs, buckets := w.buckets, uploads := w.uploads }
      w.blobObjs.length =
      { name := n, bucketRef := bref, exists_ := false, contents := ByteBuf.empty } :=
    nthD_append_length _ _ _
  rw [hgb2]
  simp [set_append_length]

/-- `FakeBlob.__init__` when the name is already registered: the fresh
object is still appended (and marked existing), but the bucket's dict is
untouched. -/
theorem FakeBlob.new_present (w : World) (n : String) (bref : Nat)
    (hb : bref < w.bucketObjs.length)
    (hpres : (odLookup n (getBucket w bref).blobs).isSome = true) :
    FakeBlob.new w n bref = (w.blobObjs.length,
      { w with blobObjs := w.blobObjs ++ [{ name := n, bucketRef := bref, exists_ := true, contents := ByteBuf.empty }] }) := by
  have hgb : getBlob
      { w with blobObjs := w.blobObjs ++ [{ name := n, bucketRef := bref, exists_ := false, contents := ByteBuf.empty }] }
      w.blobObjs.length =
      { name := n, bucketRef := bref, exists_ := false, contents := ByteBuf.empty } :=
    nthD_append_length _ _ _
  simp only [FakeBlob.new, FakeBlob._create_if_not_exists, FakeBucket.register_blob,
    updateBucket, updateBlob, hgb, Prod.mk.injEq, true_and]
  have hbk : getBucket
      { w with blobObjs := w.blobObjs ++ [{ name := n, bucketRef := bref, exists_ := false, contents := ByteBuf.empty }] }
      bref = getBucket w bref := rfl
  rw [hbk, hpres]
  simp only [if_true]
  have hset : (w.bucketObjs.set bref (getBucket w bref)) = w.bucketObjs := set_nthD _ _ _
  have hgb2 : getBlob
      { blobObjs := w.blobObjs ++ [{ name := n, bucketRef := bref, exists_ := false, contents := ByteBuf.empty }],
        bucketObjs := w.bucketObjs.set bref (getBucket w bref),
        uploadObjs := w.uploadObjs, buckets := w.buckets, uploads := w.uploads }
      w.blobObjs.length =
      { name := n, bucketRef := bref, exists_ := false, contents := ByteBuf.empty } :=
    nthD_append_length _ _ _
  rw [hgb2, hset]
  simp [set_append_length]

/-- `FakeBucket.blob(n)` when `n` is absent: the eagerly constructed
fresh blob gets registered and is what the lookup then returns. -/
theorem FakeBucket.blob_absent (w : World) (n : String) (bref : Nat)
    (hb : bref < w.bucketObjs.length)
    (habs : odLookup n (getBucket w bref).blobs = none) :
    FakeBucket.blob w bref n = (w.blobObjs.length,
      { blobObjs := w.blobObjs ++ [{ name := n, bucketRef := bref, exists_ := true, contents := ByteBuf.empty }],
        bucketObjs := w.bucketObjs.set bref
          { getBucket w bref with blobs := (getBucket w bref).blobs ++ [(n, w.blobObjs.length)] },
        uploadObjs := w.uploadObjs, buckets := w.buckets, uploads := w.uploads }) := by
  simp only [FakeBucket.blob, FakeBlob.new_absent w n bref hb habs]
  have hbk : getBucket
      { blobObjs := w.blobObjs ++ [{ name := n, bucketRef := bref, exists_ := true, contents := ByteBuf.empty }],
        bucketObjs := w.bucketObjs.set bref
          { getBucket w bref with blobs := (getBucket w bref).blobs ++ [(n, w.blobObjs.length)] },
        uploadObjs := w.uploadObjs, buckets := w.buckets, uploads := w.uploads }
      bref =
      { getBucket w bref with blobs := (getBucket w bref).blobs ++ [(n, w.blobObjs.length)] } :=
    nthD_set_self _ _ _ _ hb
  rw [hbk]
  have hlk : odLookup n ((getBucket w bref).blobs ++ [(n, w.blobObjs.length)]) =
      some w.blobObjs.length := by
    rw [odLookup_append_of_none n _ _ habs]
    simp [odLookup]
  simp [hlk]

/-- `FakeBucket.blob(n)` when `n` is registered: a throwaway fresh blob
is still constructed and appended to the heap, but the registered blob
is returned and the bucket's dict is untouched. -/
theorem FakeBucket.blob_present (w : World) (n : String) (bref r0 : Nat)
    (hb : bref < w.bucketObjs.length)
    (hpres : odLookup n (getBucket w bref).blobs = some r0) :
    FakeBucket.blob w bref n = (r0,
      { w with blobObjs := w.blobObjs ++ [{ name := n, bucketRef := bref, exists_ := true, contents := ByteBuf.empty }] }) := by
  simp only [FakeBucket.blob, FakeBlob.new_present w n bref hb (by simp [hpres])]
  have hbk : getBucket
      { w with blobObjs := w.blobObjs ++ [{ name := n, bucketRef := bref, exists_ := true, contents := ByteBuf.empty }] }
      bref = getBucket w bref := rfl
  rw [hbk, hpres]

/-- `FakeBlob.delete()` when the blob's name is registered in its
bucket: remove the dict entry and mark the object non-existent. -/
theorem FakeBlob.delete_eq (w : World) (r : Nat)
    (h : (odLookup (getBlob w r).name (getBucket w (getBlob w r).bucketRef).blobs).isSome = true) :
    FakeBlob.delete w r = .ok (updateBlob
      (updateBucket w (getBlob w r).bucketRef
        (fun bk => { bk with blobs := odDelete (getBlob w r).name bk.blobs })) r
      (fun b => { b with exists_ := false })) := by
  simp only [FakeBlob.delete, FakeBucket.delete_blob, h, if_true]

/-! ## Claim C4

`FakeBlobUpload.finish` is idempotent: the first call commits the whole
staging buffer (read from offset 0) as the target blob's content and
sets `finished`; any further call is a silent no-op. -/

/-- C4: on an unfinished upload session, `finish()` commits the entire
staging buffer from offset 0 as the target blob's full content
(overwriting whatever was there) and sets `finished`; calling `finish()`
again returns the very same heap with no error. -/
theorem C4_finish_idempotent (w : World) (uref bref : Nat) (c : ByteBuf)
    (hu : uref < w.uploadObjs.length)
    (hfin : (getUpload w uref).finished = false)
    (hc : (getUpload w uref).contents = some c)
    (hbref : (getUpload w uref).blobRef = bref)
    (hb : bref < w.blobObjs.length) :
    ∃ w1, FakeBlobUpload.finish w uref = .ok w1 ∧
      (getBlob w1 bref).contents = FakeBlob.upload_from_string c.data ∧
      (getUpload w1 uref).finished = true ∧
      FakeBlobUpload.finish w1 uref = .ok w1 := by
  have hstep : FakeBlobUpload.finish w uref =
      .ok (updateUpload (updateBlob w bref
            (fun b => { b with contents := FakeBlob.upload_from_string c.data }))
          uref
          (fun u2 => { u2 with contents := some ⟨c.data, c.data.length⟩, finished := true })) := by
    simp only [FakeBlobUpload.finish, hfin, hc, hbref, ByteBuf.seek_zero_readAll,
      Bool.false_eq_true, if_false]
  refine ⟨_, hstep, ?_, ?_, ?_⟩
  · have h1 : getBlob (updateUpload (updateBlob w bref
        (fun b => { b with contents := FakeBlob.upload_from_string c.data })) uref
        (fun u2 => { u2 with contents := some ⟨c.data, c.data.length⟩, finished := true })) bref
        = getBlob (updateBlob w bref
          (fun b => { b with contents := FakeBlob.upload_from_string c.data })) bref := rfl
    rw [h1, getBlob_updateBlob_self w bref _ hb]
  · have h2 : getUpload (updateBlob w bref
        (fun b => { b with contents := FakeBlob.upload_from_string c.data })) uref
        = getUpload w uref := rfl
    rw [getUpload_updateUpload_self _ uref _ (by simpa [updateBlob] using hu), h2]
  · have h2 : getUpload (updateBlob w bref
        (fun b => { b with contents := FakeBlob.upload_from_string c.data })) uref
        = getUpload w uref := rfl
    have h3 : (getUpload (updateUpload (updateBlob w bref
        (fun b => { b with contents := FakeBlob.upload_from_string c.data })) uref
        (fun u2 => { u2 with contents := some ⟨c.data, c.data.length⟩, finished := true }))
        uref).finished = true := by
      rw [getUpload_updateUpload_self _ uref _ (by simpa [updateBlob] using hu), h2]
    simp only [FakeBlobUpload.finish, h3, if_true]

/-- Witness for C4 on a concrete heap: one bucket, one blob, one open
session whose staging buffer holds `b"te"`. -/
theorem C4_finish_idempotent_witness :
    (0 : Nat) < ([⟨"u", 0, false, some ⟨[116, 101], 2⟩⟩] : List UploadObj).length ∧
    (∃ w1, FakeBlobUpload.finish
        ⟨[⟨"b", 0, true, ByteBuf.empty⟩], [⟨"bk", [("b", 0)], true⟩],
         [⟨"u", 0, false, some ⟨[116, 101], 2⟩⟩], [("bk", 0)], [("u", 0)]⟩ 0 = .ok w1 ∧
      (getBlob w1 0).contents = FakeBlob.upload_from_string (⟨[116, 101], 2⟩ : ByteBuf).data ∧
      (getUpload w1 0).finished = true ∧
      FakeBlobUpload.finish w1 0 = .ok w1) :=
  ⟨by decide,
   C4_finish_idempotent
     ⟨[⟨"b", 0, true, ByteBuf.empty⟩], [⟨"bk", [("b", 0)], true⟩],
      [⟨"u", 0, false, some ⟨[116, 101], 2⟩⟩], [("bk", 0)], [("u", 0)]⟩
     0 0 ⟨[116, 101], 2⟩ (by decide) (by decide) (by decide) (by decide) (by decide)⟩

/-! ## Claim C6

Duplicate bucket creation fails with `Conflict` and leaves the client's
registry untouched; lookup of an unregistered name fails `NotFound`. -/

/-- C6: constructing a second bucket under an already-registered name
raises `Conflict` and leaves the client's bucket registry unchanged (the
original bucket is still the one a lookup returns), and looking up a
never-registered bucket name raises `NotFound`. -/
theorem C6_bucket_conflict_and_notfound (w : World) (name name2 : String) (ref0 : Nat)
    (h1 : odLookup name w.buckets = some ref0)
    (h2 : odLookup name2 w.buckets = none) :
    (FakeBucket.new w name).1 =
      .error (.conflict ("Bucket " ++ name ++ " already exists")) ∧
    (FakeBucket.new w name).2.buckets = w.buckets ∧
    odLookup name (FakeBucket.new w name).2.buckets = some ref0 ∧
    FakeClient.bucket w name2 =
      .error (.notFound ("Bucket " ++ name2 ++ " not found")) := by
  have hname : (getBucket
      { w with bucketObjs := w.bucketObjs ++ [{ name := name, blobs := [], exists_ := true }] }
      w.bucketObjs.length).name = name := by
    have := nthD_append_length w.bucketObjs
      ({ name := name, blobs := [], exists_ := true } : BucketObj) dfltBucket
    simp [getBucket, this]
  have hreg : FakeClient.register_bucket
      { w with bucketObjs := w.bucketObjs ++ [{ name := name, blobs := [], exists_ := true }] }
      w.bucketObjs.length =
      .error (.conflict ("Bucket " ++ name ++ " already exists")) := by
    simp only [FakeClient.register_bucket, hname]
    have hlk : odLookup name
        ({ w with bucketObjs := w.bucketObjs ++ [{ name := name, blobs := [], exists_ := true }] } : World).buckets
        = some ref0 := h1
    rw [hlk]
    rfl
  refine ⟨?_, ?_, ?_, ?_⟩
  · simp only [FakeBucket.new, hreg]
  · simp only [FakeBucket.new, hreg]
  · simp only [FakeBucket.new, hreg]
    exact h1
  · simp only [FakeClient.bucket, h2]

/-- Witness for C6 on a concrete heap holding the bucket `"bk"`. -/
theorem C6_bucket_conflict_and_notfound_witness :
    odLookup "bk" ([("bk", 0)] : List (String × Nat)) = some 0 ∧
    ((FakeBucket.new ⟨[], [⟨"bk", [], true⟩], [], [("bk", 0)], []⟩ "bk").1 =
        .error (.conflict ("Bucket " ++ "bk" ++ " already exists")) ∧
      (FakeBucket.new ⟨[], [⟨"bk", [], true⟩], [], [("bk", 0)], []⟩ "bk").2.buckets = [("bk", 0)] ∧
      odLookup "bk" (FakeBucket.new ⟨[], [⟨"bk", [], true⟩], [], [("bk", 0)], []⟩ "bk").2.buckets = some 0 ∧
      FakeClient.bucket ⟨[], [⟨"bk", [], true⟩], [], [("bk", 0)], []⟩ "other" =
        .error (.notFound ("Bucket " ++ "other" ++ " not found"))) :=
  ⟨by decide,
   C6_bucket_conflict_and_notfound ⟨[], [⟨"bk", [], true⟩], [], [("bk", 0)], []⟩
     "bk" "other" 0 (by decide) (by decide)⟩

/-! ## Claim C8

`bucket.blob(n)` called twice returns the same registered handle. -/

/-- C8: with `n` absent, the first `bucket.blob(n)` creates, registers
and marks-existing a fresh empty blob; the second call returns that very
same registered handle (equal reference, hence the same stored content),
not a distinct fresh one. -/
theorem C8_blob_twice_same_handle (w : World) (bref : Nat) (n : String)
    (hb : bref < w.bucketObjs.length)
    (habs : odLookup n (getBucket w bref).blobs = none) :
    (FakeBucket.blob w bref n).1 = w.blobObjs.length ∧
    getBlob (FakeBucket.blob w bref n).2 (FakeBucket.blob w bref n).1 =
      { name := n, bucketRef := bref, exists_ := true, contents := ByteBuf.empty } ∧
    odLookup n (getBucket (FakeBucket.blob w bref n).2 bref).blobs =
      some (FakeBucket.blob w bref n).1 ∧
    (FakeBucket.blob (FakeBucket.blob w bref n).2 bref n).1 =
      (FakeBucket.blob w bref n).1 ∧
    getBlob (FakeBucket.blob (FakeBucket.blob w bref n).2 bref n).2
        (FakeBucket.blob w bref n).1 =
      { name := n, bucketRef := bref, exists_ := true, contents := ByteBuf.empty } := by
  have h1 := FakeBucket.blob_absent w n bref hb habs
  rw [h1]
  dsimp only
  have hlk : odLookup n (getBucket
      { blobObjs := w.blobObjs ++ [{ name := n, bucketRef := bref, exists_ := true, contents := ByteBuf.empty }],
        bucketObjs := w.bucketObjs.set bref
          { getBucket w bref with blobs := (getBucket w bref).blobs ++ [(n, w.blobObjs.length)] },
        uploadObjs := w.uploadObjs, buckets := w.buckets, uploads := w.uploads } bref).blobs =
      some w.blobObjs.length := by
    show odLookup n (nthD (w.bucketObjs.set bref
      { getBucket w bref with blobs := (getBucket w bref).blobs ++ [(n, w.blobObjs.length)] })
      bref dfltBucket).blobs = some w.blobObjs.length
    rw [nthD_set_self _ _ _ _ hb]
    rw [odLookup_append_of_none n _ _ habs]
    simp [odLookup]
  have hb' : bref < (w.bucketObjs.set bref
      { getBucket w bref with blobs := (getBucket w bref).blobs ++ [(n, w.blobObjs.length)] }).length := by
    simpa using hb
  have h2 := FakeBucket.blob_present
    { blobObjs := w.blobObjs ++ [{ name := n, bucketRef := bref, exists_ := true, contents := ByteBuf.empty }],
      bucketObjs := w.bucketObjs.set bref
        { getBucket w bref with blobs := (getBucket w bref).blobs ++ [(n, w.blobObjs.length)] },
      uploadObjs := w.uploadObjs, buckets := w.buckets, uploads := w.uploads }
    n bref w.blobObjs.length hb' hlk
  refine ⟨rfl, nthD_append_length _ _ _, hlk, ?_, ?_⟩
  · rw [h2]
  · rw [h2]
    dsimp only
    show nthD ((w.blobObjs ++ [_]) ++ [_]) w.blobObjs.length dfltBlob = _
    rw [nthD_append_lt _ _ _ _ (by simp)]
    exact nthD_append_length _ _ _

/-- Witness for C8 on a concrete heap holding one empty bucket. -/
theorem C8_blob_twice_same_handle_witness :
    (0 : Nat) < ([⟨"bk", [], true⟩] : List BucketObj).length ∧
    ((FakeBucket.blob ⟨[], [⟨"bk", [], true⟩], [], [("bk", 0)], []⟩ 0 "b").1 = 0 ∧
      getBlob (FakeBucket.blob ⟨[], [⟨"bk", [], true⟩], [], [("bk", 0)], []⟩ 0 "b").2
          (FakeBucket.blob ⟨[], [⟨"bk", [], true⟩], [], [("bk", 0)], []⟩ 0 "b").1 =
        { name := "b", bucketRef := 0, exists_ := true, contents := ByteBuf.empty } ∧
      odLookup "b" (getBucket
          (FakeBucket.blob ⟨[], [⟨"bk", [], true⟩], [], [("bk", 0)], []⟩ 0 "b").2 0).blobs =
        some (FakeBucket.blob ⟨[], [⟨"bk", [], true⟩], [], [("bk", 0)], []⟩ 0 "b").1 ∧
      (FakeBucket.blob (FakeBucket.blob ⟨[], [⟨"bk", [], true⟩], [], [("bk", 0)], []⟩ 0 "b").2
          0 "b").1 =
        (FakeBucket.blob ⟨[], [⟨"bk", [], true⟩], [], [("bk", 0)], []⟩ 0 "b").1 ∧
      getBlob (FakeBucket.blob
            (FakeBucket.blob ⟨[], [⟨"bk", [], true⟩], [], [("bk", 0)], []⟩ 0 "b").2 0 "b").2
          (FakeBucket.blob ⟨[], [⟨"bk", [], true⟩], [], [("bk", 0)], []⟩ 0 "b").1 =
        { name := "b", bucketRef := 0, exists_ := true, contents := ByteBuf.empty }) :=
  ⟨by decide,
   C8_blob_twice_same_handle ⟨[], [⟨"bk", [], true⟩], [], [("bk", 0)], []⟩ 0 "b"
     (by decide) (by decide)⟩

/-! ## Claim C10

Deleted blobs are silently resurrected on access. -/

/-- C10: after deleting the blob registered under `n`, a later
`bucket.blob(n)` constructs, registers and returns a distinct fresh blob
under `n` — existing, with empty content and absent size — while the
previously deleted handle still reports non-existence. -/
theorem C10_deleted_blob_resurrected (w : World) (bref r : Nat) (n : String)
    (hb : bref < w.bucketObjs.length)
    (hr : r < w.blobObjs.length)
    (hname : (getBlob w r).name = n)
    (hbref : (getBlob w r).bucketRef = bref)
    (hreg : odLookup n (getBucket w bref).blobs = some r) :
    ∃ w1 : World,
      FakeBlob.delete w r = .ok w1 ∧
      (getBlob w1 r).exists_ = false ∧
      odLookup n (getBucket w1 bref).blobs = none ∧
      (FakeBucket.blob w1 bref n).1 ≠ r ∧
      getBlob (FakeBucket.blob w1 bref n).2 (FakeBucket.blob w1 bref n).1 =
        { name := n, bucketRef := bref, exists_ := true, contents := ByteBuf.empty } ∧
      FakeBlob.size (getBlob (FakeBucket.blob w1 bref n).2
        (FakeBucket.blob w1 bref n).1).contents = none ∧
      odLookup n (getBucket (FakeBucket.blob w1 bref n).2 bref).blobs =
        some (FakeBucket.blob w1 bref n).1 ∧
      (getBlob (FakeBucket.blob w1 bref n).2 r).exists_ = false := by
  have hdel := FakeBlob.delete_eq w r (by rw [hname, hbref, hreg]; rfl)
  rw [hname, hbref] at hdel
  set w1 : World := updateBlob (updateBucket w bref
      (fun bk => { bk with blobs := odDelete n bk.blobs })) r
      (fun b => { b with exists_ := false }) with hw1
  have hlen1 : w1.blobObjs.length = w.blobObjs.length := by
    simp [hw1, updateBlob, updateBucket]
  have hb1 : bref < w1.bucketObjs.length := by
    simpa [hw1, updateBlob, updateBucket] using hb
  have hr1 : r < w1.blobObjs.length := by omega
  have hold : (getBlob w1 r).exists_ = false := by
    rw [hw1]
    rw [getBlob_updateBlob_self _ r _ (by simpa [updateBucket] using hr)]
  have habs1 : odLookup n (getBucket w1 bref).blobs = none := by
    rw [hw1]
    show odLookup n (getBucket (updateBucket w bref
      (fun bk => { bk with blobs := odDelete n bk.blobs })) bref).blobs = none
    rw [getBucket_updateBucket_self _ _ _ hb]
    exact odLookup_odDelete_self n _
  have h2 := FakeBucket.blob_absent w1 n bref hb1 habs1
  refine ⟨w1, hdel, hold, habs1, ?_, ?_, ?_, ?_, ?_⟩
  · rw [h2]
    dsimp only
    omega
  · rw [h2]
    dsimp only
    simp only [getBlob, nthD_append_length]
  · rw [h2]
    dsimp only
    simp only [getBlob, nthD_append_length]
    rfl
  · rw [h2]
    dsimp only
    simp only [getBucket, nthD_set_self _ _ _ _ hb1]
    show odLookup n ((getBucket w1 bref).blobs ++ [(n, w1.blobObjs.length)]) =
      some w1.blobObjs.length
    rw [odLookup_append_of_none n _ _ habs1]
    simp [odLookup]
  · rw [h2]
    dsimp only
    simp only [getBlob]
    rw [nthD_append_lt _ _ _ _ hr1]
    exact hold

/-- Witness for C10 on a concrete heap with one registered blob. -/
theorem C10_deleted_blob_resurrected_witness :
    (0 : Nat) < ([⟨"bk", [("b", 0)], true⟩] : List BucketObj).length ∧
    (∃ w1 : World,
      FakeBlob.delete ⟨[⟨"b", 0, true, ByteBuf.empty⟩], [⟨"bk", [("b", 0)], true⟩],
          [], [("bk", 0)], []⟩ 0 = .ok w1 ∧
      (getBlob w1 0).exists_ = false ∧
      odLookup "b" (getBucket w1 0).blobs = none ∧
      (FakeBucket.blob w1 0 "b").1 ≠ 0 ∧
      getBlob (FakeBucket.blob w1 0 "b").2 (FakeBucket.blob w1 0 "b").1 =
        { name := "b", bucketRef := 0, exists_ := true, contents := ByteBuf.empty } ∧
      FakeBlob.size (getBlob (FakeBucket.blob w1 0 "b").2
        (FakeBucket.blob w1 0 "b").1).contents = none ∧
      odLookup "b" (getBucket (FakeBucket.blob w1 0 "b").2 0).blobs =
        some (FakeBucket.blob w1 0 "b").1 ∧
      (getBlob (FakeBucket.blob w1 0 "b").2 0).exists_ = false) :=
  ⟨by decide,
   C10_deleted_blob_resurrected
     ⟨[⟨"b", 0, true, ByteBuf.empty⟩], [⟨"bk", [("b", 0)], true⟩], [], [("bk", 0)], []⟩
     0 0 "b" (by decide) (by decide) (by decide) (by decide) (by decide)⟩

/-! ### Characterizations of the transport adapter on live sessions -/

/-- `finish()` on an unfinished session with a live buffer commits the
whole buffer to the target blob. -/
theorem FakeBlobUpload.finish_eq (w : World) (uref bref : Nat) (c : ByteBuf)
    (hfin : (getUpload w uref).finished = false)
    (hc : (getUpload w uref).contents = some c)
    (hbref : (getUpload w uref).blobRef = bref) :
    FakeBlobUpload.finish w uref = .ok (updateUpload (updateBlob w bref
        (fun b => { b with contents := FakeBlob.upload_from_string c.data })) uref
        (fun u2 => { u2 with contents := some ⟨c.data, c.data.length⟩, finished := true })) := by
  simp only [FakeBlobUpload.finish, hfin, hc, hbref, ByteBuf.seek_zero_readAll,
    Bool.false_eq_true, if_false]

/-- `put` with a content-range ending in the unknown marker: the chunk
is written to the staging buffer, nothing is finished, and the first
reserved incomplete status code is returned. -/
theorem put_incomplete_eq (w : World) (url : String) (uref : Nat) (c : ByteBuf)
    (chunk : Bytes) (cr : String)
    (h1 : odLookup url w.uploads = some uref)
    (h4 : (getUpload w uref).contents = some c)
    (h8 : strEndsWith cr UNKNOWN = true) :
    FakeAuthorizedSession.put w url (some chunk) (some cr) =
      .ok ({ status_code := 308, text := none },
        updateUpload w uref (fun u => { u with contents := some (c.write chunk) })) := by
  simp only [FakeAuthorizedSession.put, h1, FakeBlobUpload.write, h4, Option.getD_some,
    h8, if_true]
  rfl

/-- `put` with a content-range that does not end in the unknown marker,
on an unfinished session: the chunk is written, the session finished
(committing the accumulated buffer to the blob), and 200 returned. -/
theorem put_complete_eq (w : World) (url : String) (uref bref : Nat) (c : ByteBuf)
    (chunk : Bytes) (cr : String)
    (h1 : odLookup url w.uploads = some uref)
    (h2 : uref < w.uploadObjs.length)
    (h3 : (getUpload w uref).finished = false)
    (h4 : (getUpload w uref).contents = some c)
    (h6 : (getUpload w uref).blobRef = bref)
    (h9 : strEndsWith cr UNKNOWN = false) :
    FakeAuthorizedSession.put w url (some chunk) (some cr) =
      .ok ({ status_code := 200, text := none },
        updateUpload (updateBlob (updateUpload w uref
            (fun u => { u with contents := some (c.write chunk) })) bref
            (fun b => { b with contents := FakeBlob.upload_from_string (c.write chunk).data }))
          uref
          (fun u2 => { u2 with
            contents := some ⟨(c.write chunk).data, (c.write chunk).data.length⟩,
            finished := true })) := by
  have hup : getUpload (updateUpload w uref
      (fun u => { u with contents := some (c.write chunk) })) uref =
      { getUpload w uref with contents := some (c.write chunk) } :=
    getUpload_updateUpload_self w uref _ h2
  have hfin := FakeBlobUpload.finish_eq
    (updateUpload w uref (fun u => { u with contents := some (c.write chunk) }))
    uref bref (c.write chunk)
    (by rw [hup]; exact h3) (by rw [hup]) (by rw [hup]; exact h6)
  simp only [FakeAuthorizedSession.put, h1, FakeBlobUpload.write, h4, Option.getD_some,
    h9, Bool.false_eq_true, if_false, hfin]

/-! ## Claim C1

Chunked upload through the transport adapter: an unknown-total-length
put stages the chunk without touching the blob and answers a reserved
incomplete (non-2xx) code; a known-total-length put stages its chunk,
commits the accumulated buffer and answers 200. -/

/-- C1: on a registered, unfinished upload session whose staging buffer
position sits at its end, a put whose content-range declares the total
length unknown appends the chunk to the staging buffer, leaves the
target blob entirely unchanged, and returns the reserved incomplete
status 308 (a non-2xx code); a subsequent put declaring the total length
known appends its chunk, commits the whole accumulated buffer as the
blob's content, and returns 200. -/
theorem C1_chunked_upload (w : World) (url : String) (uref bref : Nat)
    (c : ByteBuf) (chunk1 chunk2 : Bytes) (cr1 cr2 : String)
    (h1 : odLookup url w.uploads = some uref)
    (h2 : uref < w.uploadObjs.length)
    (h3 : (getUpload w uref).finished = false)
    (h4 : (getUpload w uref).contents = some c)
    (h5 : c.pos = c.data.length)
    (h6 : (getUpload w uref).blobRef = bref)
    (h7 : bref < w.blobObjs.length)
    (h8 : strEndsWith cr1 UNKNOWN = true)
    (h9 : strEndsWith cr2 UNKNOWN = false) :
    ∃ w1 w2 : World,
      FakeAuthorizedSession.put w url (some chunk1) (some cr1) =
        .ok ({ status_code := 308, text := none }, w1) ∧
      308 ∈ UPLOAD_INCOMPLETE_STATUS_CODES ∧
      ¬(200 ≤ 308 ∧ 308 ≤ 299) ∧
      (getUpload w1 uref).contents =
        some ⟨c.data ++ chunk1, (c.data ++ chunk1).length⟩ ∧
      (getUpload w1 uref).finished = false ∧
      getBlob w1 bref = getBlob w bref ∧
      FakeAuthorizedSession.put w1 url (some chunk2) (some cr2) =
        .ok ({ status_code := 200, text := none }, w2) ∧
      (getBlob w2 bref).contents =
        FakeBlob.upload_from_string ((c.data ++ chunk1) ++ chunk2) ∧
      (getUpload w2 uref).finished = true := by
  have hcw1 : c.write chunk1 = ⟨c.data ++ chunk1, (c.data ++ chunk1).length⟩ := by
    rw [ByteBuf.write_at_end c chunk1 h5]
    simp
  have hput1 := put_incomplete_eq w url uref c chunk1 cr1 h1 h4 h8
  rw [hcw1] at hput1
  set w1 : World := updateUpload w uref
    (fun u => { u with contents := some ⟨c.data ++ chunk1, (c.data ++ chunk1).length⟩ }) with hw1
  have hup1 : getUpload w1 uref =
      { getUpload w uref with contents := some ⟨c.data ++ chunk1, (c.data ++ chunk1).length⟩ } := by
    rw [hw1]
    exact getUpload_updateUpload_self w uref _ h2
  have h1' : odLookup url w1.uploads = some uref := h1
  have h2' : uref < w1.uploadObjs.length := by
    rw [hw1]
    simpa [updateUpload] using h2
  have hcw2 : (⟨c.data ++ chunk1, (c.data ++ chunk1).length⟩ : ByteBuf).write chunk2 =
      ⟨(c.data ++ chunk1) ++ chunk2, ((c.data ++ chunk1) ++ chunk2).length⟩ := by
    rw [ByteBuf.write_at_end _ chunk2 rfl]
    simp [Nat.add_assoc]
  have hput2 := put_complete_eq w1 url uref bref
    ⟨c.data ++ chunk1, (c.data ++ chunk1).length⟩ chunk2 cr2
    h1' h2' (by rw [hup1]; exact h3) (by rw [hup1]) (by rw [hup1]; exact h6) h9
  rw [hcw2] at hput2
  refine ⟨w1, _, hput1, by decide, by decide, ?_, ?_, rfl, hput2, ?_, ?_⟩
  · rw [hup1]
  · rw [hup1]
    exact h3
  · rw [getBlob_updateUpload]
    rw [getBlob_updateBlob_self]
    exact h7
  · rw [getUpload_updateUpload_self _ uref _
      (by simp only [updateBlob, updateUpload, List.length_set]; exact h2')]

/-- Witness for C1 on a concrete heap with one registered empty session:
`put b"te"` with `Content-Range: bytes 0-1/*` stages without committing
and answers 308; `put b"st"` with `bytes 2-3/4` commits `b"test"` and
answers 200. -/
theorem C1_chunked_upload_witness :
    odLookup "u" (⟨[⟨"b", 0, true, ⟨[], 0⟩⟩], [⟨"bk", [("b", 0)], true⟩],
        [⟨"u", 0, false, some ⟨[], 0⟩⟩], [("bk", 0)], [("u", 0)]⟩ : World).uploads = some 0 ∧
    (0 : Nat) < 1 ∧
    (getUpload ⟨[⟨"b", 0, true, ⟨[], 0⟩⟩], [⟨"bk", [("b", 0)], true⟩],
        [⟨"u", 0, false, some ⟨[], 0⟩⟩], [("bk", 0)], [("u", 0)]⟩ 0).finished = false ∧
    (getUpload ⟨[⟨"b", 0, true, ⟨[], 0⟩⟩], [⟨"bk", [("b", 0)], true⟩],
        [⟨"u", 0, false, some ⟨[], 0⟩⟩], [("bk", 0)], [("u", 0)]⟩ 0).contents = some ⟨[], 0⟩ ∧
    (⟨[], 0⟩ : ByteBuf).pos = (⟨[], 0⟩ : ByteBuf).data.length ∧
    (getUpload ⟨[⟨"b", 0, true, ⟨[], 0⟩⟩], [⟨"bk", [("b", 0)], true⟩],
        [⟨"u", 0, false, some ⟨[], 0⟩⟩], [("bk", 0)], [("u", 0)]⟩ 0).blobRef = 0 ∧
    strEndsWith "bytes 0-1/*" UNKNOWN = true ∧
    strEndsWith "bytes 2-3/4" UNKNOWN = false ∧
    (∃ w1 w2 : World,
      FakeAuthorizedSession.put ⟨[⟨"b", 0, true, ⟨[], 0⟩⟩], [⟨"bk", [("b", 0)], true⟩],
          [⟨"u", 0, false, some ⟨[], 0⟩⟩], [("bk", 0)], [("u", 0)]⟩
          "u" (some [116, 101]) (some "bytes 0-1/*") =
        .ok ({ status_code := 308, text := none }, w1) ∧
      308 ∈ UPLOAD_INCOMPLETE_STATUS_CODES ∧
      ¬(200 ≤ 308 ∧ 308 ≤ 299) ∧
      (getUpload w1 0).contents =
        some ⟨(⟨[], 0⟩ : ByteBuf).data ++ [116, 101],
          ((⟨[], 0⟩ : ByteBuf).data ++ [116, 101]).length⟩ ∧
      (getUpload w1 0).finished = false ∧
      getBlob w1 0 = getBlob ⟨[⟨"b", 0, true, ⟨[], 0⟩⟩], [⟨"bk", [("b", 0)], true⟩],
          [⟨"u", 0, false, some ⟨[], 0⟩⟩], [("bk", 0)], [("u", 0)]⟩ 0 ∧
      FakeAuthorizedSession.put w1 "u" (some [115, 116]) (some "bytes 2-3/4") =
        .ok ({ status_code := 200, text := none }, w2) ∧
      (getBlob w2 0).contents =
        FakeBlob.upload_from_string
          (((⟨[], 0⟩ : ByteBuf).data ++ [116, 101]) ++ [115, 116]) ∧
      (getUpload w2 0).finished = true) :=
  ⟨by decide, by decide, by decide, by decide, by decide, by decide, by decide, by decide,
   C1_chunked_upload
     ⟨[⟨"b", 0, true, ⟨[], 0⟩⟩], [⟨"bk", [("b", 0)], true⟩],
      [⟨"u", 0, false, some ⟨[], 0⟩⟩], [("bk", 0)], [("u", 0)]⟩
     "u" 0 0 ⟨[], 0⟩ [116, 101] [115, 116] "bytes 0-1/*" "bytes 2-3/4"
     (by decide) (by decide) (by decide) (by decide) (by decide) (by decide) (by decide)
     (by decide) (by decide)⟩

/-! ## Claim C3

Deleting an upload session removes it from the registry and deletes its
target blob.  The claim also says put/delete on an unknown URL fails
with a NotFound-kind error; the code instead performs a raw dict access
(`uploads[url]` / `uploads.pop(url)`), so what escapes is Python's
builtin `KeyError` — not the `google.cloud.exceptions.NotFound` the
registry lookups elsewhere in the module translate to. -/

/-- Counterexample to C3 as stated: on a concrete heap, the first
session delete succeeds, and the second delete of the same URL raises
the builtin `KeyError` — which is not the NotFound kind. -/
theorem C3_session_delete_cex :
    FakeAuthorizedSession.delete
        ⟨[⟨"b", 0, true, ⟨[], 0⟩⟩], [⟨"bk", [("b", 0)], true⟩],
         [⟨"u", 0, false, some ⟨[], 0⟩⟩], [("bk", 0)], [("u", 0)]⟩ "u" =
      .ok ⟨[⟨"b", 0, false, ⟨[], 0⟩⟩], [⟨"bk", [], true⟩],
        [⟨"u", 0, false, none⟩], [("bk", 0)], []⟩ ∧
    FakeAuthorizedSession.delete
        ⟨[⟨"b", 0, false, ⟨[], 0⟩⟩], [⟨"bk", [], true⟩],
         [⟨"u", 0, false, none⟩], [("bk", 0)], []⟩ "u" =
      .error (.keyError "u") ∧
    (Err.keyError "u").isNotFound = false := by
  refine ⟨by rfl, by rfl, by rfl⟩

/-- C3 (amended): deleting a registered session URL removes it from the
client's upload registry and deletes the target blob (`exists()` becomes
false and it is unregistered from its bucket); any put or delete on a
URL not in the registry — including a second delete of the same URL —
fails with Python's builtin `KeyError` (a raw mapping lookup failure,
not the `google.cloud.exceptions.NotFound` kind). -/
theorem C3_session_delete (w : World) (url url2 : String) (uref bref : Nat)
    (d : Option Bytes) (cr : Option String)
    (h1 : odLookup url w.uploads = some uref)
    (h2 : uref < w.uploadObjs.length)
    (h3 : (getUpload w uref).blobRef = bref)
    (h4 : bref < w.blobObjs.length)
    (h5 : (getBlob w bref).bucketRef < w.bucketObjs.length)
    (h6 : (odLookup (getBlob w bref).name
      (getBucket w (getBlob w bref).bucketRef).blobs).isSome = true)
    (h7 : odLookup url2 w.uploads = none) :
    ∃ w1 : World,
      FakeAuthorizedSession.delete w url = .ok w1 ∧
      odLookup url w1.uploads = none ∧
      (getBlob w1 bref).exists_ = false ∧
      odLookup (getBlob w bref).name
        (getBucket w1 (getBlob w bref).bucketRef).blobs = none ∧
      FakeAuthorizedSession.delete w1 url = .error (.keyError url) ∧
      FakeAuthorizedSession.put w1 url d cr = .error (.keyError url) ∧
      FakeAuthorizedSession.delete w url2 = .error (.keyError url2) ∧
      FakeAuthorizedSession.put w url2 d cr = .error (.keyError url2) := by
  have h3' : (getUpload { w with uploads := odDelete url w.uploads } uref).blobRef = bref := h3
  have h6' : (odLookup (getBlob { w with uploads := odDelete url w.uploads } bref).name
      (getBucket { w with uploads := odDelete url w.uploads }
        (getBlob { w with uploads := odDelete url w.uploads } bref).bucketRef).blobs).isSome
      = true := h6
  have hdb := FakeBlob.delete_eq { w with uploads := odDelete url w.uploads } bref h6'
  have hterm : FakeAuthorizedSession.delete w url =
      .ok (updateUpload (updateBlob
          (updateBucket { w with uploads := odDelete url w.uploads }
            (getBlob { w with uploads := odDelete url w.uploads } bref).bucketRef
            (fun bk => { bk with blobs := odDelete (getBlob { w with uploads := odDelete url w.uploads } bref).name bk.blobs }))
          bref (fun b => { b with exists_ := false })) uref
          (fun u => { u with contents := none })) := by
    simp only [FakeAuthorizedSession.delete, h1, FakeBlobUpload.terminate, h3', hdb]
  have hnone : odLookup url (updateUpload (updateBlob
      (updateBucket { w with uploads := odDelete url w.uploads }
        (getBlob { w with uploads := odDelete url w.uploads } bref).bucketRef
        (fun bk => { bk with blobs := odDelete (getBlob { w with uploads := odDelete url w.uploads } bref).name bk.blobs }))
      bref (fun b => { b with exists_ := false })) uref
      (fun u => { u with contents := none })).uploads = none :=
    odLookup_odDelete_self url w.uploads
  refine ⟨_, hterm, hnone, ?_, ?_, ?_, ?_, ?_, ?_⟩
  · rw [getBlob_updateUpload, getBlob_updateBlob_self]
    exact h4
  · show odLookup (getBlob w bref).name
      (getBucket (updateBucket { w with uploads := odDelete url w.uploads }
        (getBlob w bref).bucketRef
        (fun bk => { bk with blobs := odDelete (getBlob w bref).name bk.blobs }))
        (getBlob w bref).bucketRef).blobs = none
    rw [getBucket_updateBucket_self { w with uploads := odDelete url w.uploads }
      (getBlob w bref).bucketRef
      (fun bk => { bk with blobs := odDelete (getBlob w bref).name bk.blobs }) h5]
    exact odLookup_odDelete_self _ _
  · simp only [FakeAuthorizedSession.delete, hnone]
  · simp only [FakeAuthorizedSession.put, hnone]
  · simp only [FakeAuthorizedSession.delete, h7]
  · simp only [FakeAuthorizedSession.put, h7]

/-- Witness for C3 (amended) on a concrete heap with one registered
session. -/
theorem C3_session_delete_witness :
    odLookup "u" (⟨[⟨"b", 0, true, ⟨[], 0⟩⟩], [⟨"bk", [("b", 0)], true⟩],
        [⟨"u", 0, false, some ⟨[], 0⟩⟩], [("bk", 0)], [("u", 0)]⟩ : World).uploads = some 0 ∧
    odLookup "x" (⟨[⟨"b", 0, true, ⟨[], 0⟩⟩], [⟨"bk", [("b", 0)], true⟩],
        [⟨"u", 0, false, some ⟨[], 0⟩⟩], [("bk", 0)], [("u", 0)]⟩ : World).uploads = none ∧
    (∃ w1 : World,
      FakeAuthorizedSession.delete ⟨[⟨"b", 0, true, ⟨[], 0⟩⟩], [⟨"bk", [("b", 0)], true⟩],
          [⟨"u", 0, false, some ⟨[], 0⟩⟩], [("bk", 0)], [("u", 0)]⟩ "u" = .ok w1 ∧
      odLookup "u" w1.uploads = none ∧
      (getBlob w1 0).exists_ = false ∧
      odLookup (getBlob ⟨[⟨"b", 0, true, ⟨[], 0⟩⟩], [⟨"bk", [("b", 0)], true⟩],
          [⟨"u", 0, false, some ⟨[], 0⟩⟩], [("bk", 0)], [("u", 0)]⟩ 0).name
        (getBucket w1 (getBlob ⟨[⟨"b", 0, true, ⟨[], 0⟩⟩], [⟨"bk", [("b", 0)], true⟩],
          [⟨"u", 0, false, some ⟨[], 0⟩⟩], [("bk", 0)], [("u", 0)]⟩ 0).bucketRef).blobs = none ∧
      FakeAuthorizedSession.delete w1 "u" = .error (.keyError "u") ∧
      FakeAuthorizedSession.put w1 "u" none none = .error (.keyError "u") ∧
      FakeAuthorizedSession.delete ⟨[⟨"b", 0, true, ⟨[], 0⟩⟩], [⟨"bk", [("b", 0)], true⟩],
          [⟨"u", 0, false, some ⟨[], 0⟩⟩], [("bk", 0)], [("u", 0)]⟩ "x" =
        .error (.keyError "x") ∧
      FakeAuthorizedSession.put ⟨[⟨"b", 0, true, ⟨[], 0⟩⟩], [⟨"bk", [("b", 0)], true⟩],
          [⟨"u", 0, false, some ⟨[], 0⟩⟩], [("bk", 0)], [("u", 0)]⟩ "x" none none =
        .error (.keyError "x")) :=
  ⟨by decide, by decide,
   C3_session_delete
     ⟨[⟨"b", 0, true, ⟨[], 0⟩⟩], [⟨"bk", [("b", 0)], true⟩],
      [⟨"u", 0, false, some ⟨[], 0⟩⟩], [("bk", 0)], [("u", 0)]⟩
     "u" "x" 0 0 none none
     (by decide) (by decide) (by decide) (by decide) (by decide) (by decide) (by decide)⟩

/-! ## Claim C5

`bucket.delete()` cascades: the bucket and every blob it contained
become non-existent, and the blobs are unregistered. -/

/-- Invariant of the deletion loop in `FakeBucket.delete`: deleting the
registered blobs one by one empties the bucket's dict and marks every
listed blob non-existent (and never resurrects an already-dead blob). -/
theorem deleteBlobs_spec (entries : List (String × Nat)) :
    ∀ (w : World) (bref : Nat),
      bref < w.bucketObjs.length →
      (getBucket w bref).blobs = entries →
      (entries.map Prod.fst).Nodup →
      (∀ p ∈ entries, p.2 < w.blobObjs.length ∧
        (getBlob w p.2).name = p.1 ∧ (getBlob w p.2).bucketRef = bref) →
      ∃ w' : World,
        FakeBucket.deleteBlobs w (entries.map Prod.snd) = .ok w' ∧
        w'.bucketObjs = w.bucketObjs.set bref { getBucket w bref with blobs := [] } ∧
        w'.blobObjs.length = w.blobObjs.length ∧
        (∀ p ∈ entries, (getBlob w' p.2).exists_ = false) ∧
        (∀ s : Nat, (getBlob w s).exists_ = false → (getBlob w' s).exists_ = false) := by
  induction entries with
  | nil =>
    intro w bref hb hblobs _ _
    refine ⟨w, rfl, ?_, rfl, by simp, fun s h => h⟩
    have hbk : { getBucket w bref with blobs := ([] : List (String × Nat)) }
        = getBucket w bref := by
      rw [← hblobs]
    rw [hbk]
    exact (set_nthD w.bucketObjs bref dfltBucket).symm
  | cons head tail ih =>
    obtain ⟨n, r⟩ := head
    intro w bref hb hblobs hnodup hwf
    obtain ⟨hr, hn, hbr⟩ := hwf (n, r) (by simp)
    have hnotin : n ∉ tail.map Prod.fst := by
      simp only [List.map_cons, List.nodup_cons] at hnodup
      exact hnodup.1
    have hnodup' : (tail.map Prod.fst).Nodup := by
      simp only [List.map_cons, List.nodup_cons] at hnodup
      exact hnodup.2
    have hcond : (odLookup (getBlob w r).name
        (getBucket w (getBlob w r).bucketRef).blobs).isSome = true := by
      rw [hn, hbr, hblobs]
      simp [odLookup]
    have hdel := FakeBlob.delete_eq w r hcond
    rw [hn, hbr] at hdel
    set w2 : World := updateBlob (updateBucket w bref
        (fun bk => { bk with blobs := odDelete n bk.blobs })) r
        (fun b => { b with exists_ := false }) with hw2
    have hb2 : bref < w2.bucketObjs.length := by
      simpa [hw2, updateBlob, updateBucket] using hb
    have hgbk2 : getBucket w2 bref = { getBucket w bref with blobs := tail } := by
      rw [hw2, getBucket_updateBlob,
        getBucket_updateBucket_self w bref _ hb, hblobs]
      have hodd : odDelete n ((n, r) :: tail) = tail := by
        simp only [odDelete, if_pos rfl]
        exact odDelete_of_not_mem n tail
          (fun p hp hpk => hnotin (hpk ▸ List.mem_map_of_mem Prod.fst hp))
      rw [hodd]
    have hgb2 : ∀ s : Nat, (getBlob w2 s).name = (getBlob w s).name ∧
        (getBlob w2 s).bucketRef = (getBlob w s).bucketRef := by
      intro s
      by_cases hsr : r = s
      · subst hsr
        rw [hw2, getBlob_updateBlob_self _ r _ (by simpa [updateBucket] using hr)]
        exact ⟨rfl, rfl⟩
      · rw [hw2, getBlob_updateBlob_ne _ r s _ hsr]
        exact ⟨rfl, rfl⟩
    have hexr : (getBlob w2 r).exists_ = false := by
      rw [hw2, getBlob_updateBlob_self _ r _ (by simpa [updateBucket] using hr)]
    have hex2 : ∀ s : Nat, (getBlob w s).exists_ = false →
        (getBlob w2 s).exists_ = false := by
      intro s hs
      by_cases hsr : r = s
      · subst hsr
        exact hexr
      · rw [hw2, getBlob_updateBlob_ne _ r s _ hsr]
        exact hs
    have hlen2 : w2.blobObjs.length = w.blobObjs.length := by
      rw [hw2]
      simp [updateBlob, updateBucket]
    have hwf2 : ∀ p ∈ tail, p.2 < w2.blobObjs.length ∧
        (getBlob w2 p.2).name = p.1 ∧ (getBlob w2 p.2).bucketRef = bref := by
      intro p hp
      obtain ⟨hp1, hp2, hp3⟩ := hwf p (List.mem_cons_of_mem _ hp)
      exact ⟨by omega, by rw [(hgb2 p.2).1]; exact hp2, by rw [(hgb2 p.2).2]; exact hp3⟩
    obtain ⟨w', hdl, hbko, hlenf, hall, hmono⟩ :=
      ih w2 bref hb2 (by rw [hgbk2]) hnodup' hwf2
    refine ⟨w', ?_, ?_, ?_, ?_, ?_⟩
    · show FakeBucket.deleteBlobs w (((n, r) :: tail).map Prod.snd) = .ok w'
      simp only [List.map_cons]
      simp only [FakeBucket.deleteBlobs, hdel]
      exact hdl
    · rw [hbko, hgbk2, hw2]
      simp only [updateBlob, updateBucket]
      rw [List.set_set]
    · rw [hlenf, hlen2]
    · intro p hp
      rcases List.mem_cons.mp hp with hph | hpt
      · rw [hph]
        exact hmono r hexr
      · exact hall p hpt
    · intro s hs
      exact hmono s (hex2 s hs)

/-- C5: `bucket.delete()` makes the bucket non-existent and makes every
blob it contained at deletion time non-existent, unregistering each
(the bucket's blob dict ends empty). -/
theorem C5_bucket_delete_cascade (w : World) (bref : Nat)
    (hb : bref < w.bucketObjs.length)
    (hreg : (odLookup (getBucket w bref).name w.buckets).isSome = true)
    (hnodup : (((getBucket w bref).blobs).map Prod.fst).Nodup)
    (hwf : ∀ p ∈ (getBucket w bref).blobs, p.2 < w.blobObjs.length ∧
      (getBlob w p.2).name = p.1 ∧ (getBlob w p.2).bucketRef = bref) :
    ∃ w' : World,
      FakeBucket.delete w bref = .ok w' ∧
      (getBucket w' bref).exists_ = false ∧
      (getBucket w' bref).blobs = [] ∧
      ∀ p ∈ (getBucket w bref).blobs, (getBlob w' p.2).exists_ = false := by
  have hcd : FakeClient.delete_bucket w bref =
      .ok { w with buckets := odDelete (getBucket w bref).name w.buckets } := by
    simp only [FakeClient.delete_bucket, hreg, if_true]
  set w2 : World := updateBucket
      { w with buckets := odDelete (getBucket w bref).name w.buckets } bref
      (fun bk => { bk with exists_ := false }) with hw2
  have hb2 : bref < w2.bucketObjs.length := by
    simpa [hw2, updateBucket] using hb
  have hgbk2 : getBucket w2 bref = { getBucket w bref with exists_ := false } := by
    rw [hw2]
    rw [getBucket_updateBucket_self
      { w with buckets := odDelete (getBucket w bref).name w.buckets } bref _
      (by simpa using hb)]
    rfl
  have hblobs2 : (getBucket w2 bref).blobs = (getBucket w bref).blobs := by
    rw [hgbk2]
  have hwf2 : ∀ p ∈ (getBucket w bref).blobs, p.2 < w2.blobObjs.length ∧
      (getBlob w2 p.2).name = p.1 ∧ (getBlob w2 p.2).bucketRef = bref := hwf
  obtain ⟨w', hdl, hbko, hlenf, hall, hmono⟩ :=
    deleteBlobs_spec (getBucket w bref).blobs w2 bref hb2 hblobs2 hnodup hwf2
  have hgbk' : getBucket w' bref =
      { getBucket w2 bref with blobs := ([] : List (String × Nat)) } := by
    show nthD w'.bucketObjs bref dfltBucket = _
    rw [hbko]
    exact nthD_set_self _ _ _ _ hb2
  refine ⟨w', ?_, ?_, ?_, ?_⟩
  · simp only [FakeBucket.delete, hcd]
    show FakeBucket.deleteBlobs w2 (FakeBucket.list_blobs w2 bref) = .ok w'
    have hlb : FakeBucket.list_blobs w2 bref =
        (getBucket w bref).blobs.map Prod.snd := by
      simp only [FakeBucket.list_blobs, hblobs2]
    rw [hlb]
    exact hdl
  · rw [hgbk', hgbk2]
  · rw [hgbk']
  · intro p hp
    exact hall p hp

/-- Witness for C5 on a concrete heap: a bucket holding two blobs. -/
theorem C5_bucket_delete_cascade_witness :
    (0 : Nat) < ([⟨"bk", [("a", 0), ("c", 1)], true⟩] : List BucketObj).length ∧
    (∀ p ∈ (getBucket ⟨[⟨"a", 0, true, ⟨[], 0⟩⟩, ⟨"c", 0, true, ⟨[], 0⟩⟩],
        [⟨"bk", [("a", 0), ("c", 1)], true⟩], [], [("bk", 0)], []⟩ 0).blobs,
      p.2 < 2 ∧ True) ∧
    (∃ w' : World,
      FakeBucket.delete ⟨[⟨"a", 0, true, ⟨[], 0⟩⟩, ⟨"c", 0, true, ⟨[], 0⟩⟩],
          [⟨"bk", [("a", 0), ("c", 1)], true⟩], [], [("bk", 0)], []⟩ 0 = .ok w' ∧
      (getBucket w' 0).exists_ = false ∧
      (getBucket w' 0).blobs = [] ∧
      ∀ p ∈ (getBucket ⟨[⟨"a", 0, true, ⟨[], 0⟩⟩, ⟨"c", 0, true, ⟨[], 0⟩⟩],
          [⟨"bk", [("a", 0), ("c", 1)], true⟩], [], [("bk", 0)], []⟩ 0).blobs,
        (getBlob w' p.2).exists_ = false) :=
  ⟨by decide, by decide,
   C5_bucket_delete_cascade
     ⟨[⟨"a", 0, true, ⟨[], 0⟩⟩, ⟨"c", 0, true, ⟨[], 0⟩⟩],
      [⟨"bk", [("a", 0), ("c", 1)], true⟩], [], [("bk", 0)], []⟩ 0
     (by decide) (by decide) (by decide) (by decide)⟩

end Moogle
